import Mathlib

/-!
Shallow embedding of the xamboo request engine (engines/redirect/redirect.go,
the wajafapp compiled-library engine, and the core page engine found in the
same source file).  Request paths are represented by their list of
'/'-separated segments, mirroring the strings.Split / strings.Join pairs the
Go code itself uses; strings manipulated character-wise (Engine.Start's page
cleaning, the [[CONTENT]] splice) are represented as List Char.
-/

/- ------------------------------------------------------------------ -/
/- The redirect engine: RedirectEngine.Run (redirect.go lines 24-40). -/
/- ------------------------------------------------------------------ -/

/-- The fields of assets.Context that RedirectEngine.Run reads.
redirecturl and redirectcode are MainPageparams.GetString / GetInt of the
matched redirect descriptor (missing keys give "" resp. 0). -/
structure RedirectCtx where
  IsMainPage : Bool
  redirecturl : String
  redirectcode : Int
  MainPage : String
deriving DecidableEq

/-- Observable outcome of RedirectEngine.Run: an http.Redirect call, or the
http.StatusInternalServerError diagnostic it returns otherwise. -/
inductive RedirectOut where
  | redirect (url : String) (code : Int)
  | internalError (msg : String)
deriving DecidableEq

/-- RedirectEngine.Run: when the call is top-level (IsMainPage) and the
descriptor carries a non-empty redirecturl, the code is forced into
{301, 302, 307, 308}, defaulting to 308 (http.StatusPermanentRedirect),
and http.Redirect is issued; the two nested if-tests otherwise fall
through to the common error return. -/
def redirectEngineRun (ctx : RedirectCtx) : RedirectOut :=
  if ctx.IsMainPage = true ∧ ctx.redirecturl ≠ "" then
    let code :=
      if ctx.redirectcode ≠ 301 ∧ ctx.redirectcode ≠ 302 ∧
         ctx.redirectcode ≠ 307 ∧ ctx.redirectcode ≠ 308
      then (308 : Int) else ctx.redirectcode
    RedirectOut.redirect ctx.redirecturl code
  else
    RedirectOut.internalError
      ("Please specify redirecturl and redirectcode in .page " ++ ctx.MainPage)

/- -------------------------------------------------------------- -/
/- Engine.Start page cleaning (core engine, lines 339-370).       -/
/- -------------------------------------------------------------- -/

/-- What Engine.Start does after cleaning the page: either the automatic
redirect for a trailing slash (launchRedirect) or the call to e.Run. -/
inductive StartAction where
  | redirectSlash (page : List Char)
  | run (page : List Char)
deriving DecidableEq

/-- Engine.Start's page cleaning.  The Go code indexes page[0] before any
emptiness test, so the empty page is out of bounds: the embedding returns
none there (a Go runtime panic).  Only after the leading- and
trailing-slash handling does an empty page get replaced by the configured
mainpage. -/
def startClean (mainpage : List Char) (page : List Char) : Option StartAction :=
  match page with
  | [] => none
  | c :: rest =>
    let p := if c = '/' then rest else c :: rest
    if 0 < p.length ∧ p.getLast? = some '/' then
      some (StartAction.redirectSlash p.dropLast)
    else if p.length = 0 then
      some (StartAction.run mainpage)
    else
      some (StartAction.run p)

/- -------------------------------------------------------------- -/
/- Page descriptors and the availability predicate (lines 656-670). -/
/- -------------------------------------------------------------- -/

/-- The descriptor fields the core engine reads from a .page config:
status, type, the parent template reference ("" when absent), the
redirect target, and AcceptPathParameters. -/
structure PageDesc where
  status : String
  type : String
  template : String
  redirectTo : String
  acceptPathParameters : Bool
deriving DecidableEq

/-- Engine.isAvailable: hidden never serves, published always serves,
template/block serve only on inner (recursive) calls. -/
def isAvailable (innerpage : Bool) (p : PageDesc) : Bool :=
  if p.status = "hidden" then false
  else if p.status = "published" then true
  else if innerpage = true ∧ (p.status = "template" ∨ p.status = "block") then true
  else false

/-- One iteration of the locator's test: the store lookup combined with the
availability predicate (pagedata != nil && e.isAvailable(...)). -/
def descrAt (store : List String → Option PageDesc) (inner : Bool)
    (segs : List String) : Option PageDesc :=
  match store segs with
  | some d => if isAvailable inner d then some d else none
  | none => none

/-- The locator loop of Engine.Run (lines 390-403), indexed by the number k
of leading segments still under consideration: the Go loop keeps
P = Join(path[0:k], "/") and strips one trailing segment per failed
iteration, stopping (NotFound) once a single segment has failed.  The
second component counts the store lookups performed. -/
def locateFrom (store : List String → Option PageDesc) (inner : Bool)
    (segs : List String) : Nat → (Option (List String × PageDesc)) × Nat
  | 0 => (none, 0)
  | k + 1 =>
    match descrAt store inner (segs.take (k + 1)) with
    | some d => (some (segs.take (k + 1), d), 1)
    | none =>
      match k with
      | 0 => (none, 1)
      | _ + 1 =>
        let r := locateFrom store inner segs k
        (r.1, r.2 + 1)

/-- The locator applied to the full request path. -/
def locatePage (store : List String → Option PageDesc) (inner : Bool)
    (segs : List String) : (Option (List String × PageDesc)) × Nat :=
  locateFrom store inner segs segs.length

/- -------------------------------------------------------------- -/
/- Extra path parameters (lines 409-415).                          -/
/- -------------------------------------------------------------- -/

/-- Result of the path-parameter check that follows the locator. -/
inductive ParamCheck where
  | rejected (msg : String)
  | accepted (xParams : List String)
deriving DecidableEq

/-- Lines 409-415: when the matched P is strictly shorter than the request,
the remaining '/'-separated segments (Split(page[len(P)+1:], "/")) become
URL parameters, admitted only when the descriptor's AcceptPathParameters
is true. -/
def checkPathParams (page ps : List String) (d : PageDesc) : ParamCheck :=
  if ps = page then ParamCheck.accepted []
  else if d.acceptPathParameters then ParamCheck.accepted (page.drop ps.length)
  else ParamCheck.rejected "Error 404: no page found with parameters"

/- -------------------------------------------------------------- -/
/- Top-level redirect dispatch and the recursion guard.            -/
/- -------------------------------------------------------------- -/

/-- Lines 417-423: only when the call is not an inner page is a descriptor
of type redirect turned into launchRedirect(pagedata.Get("Redirect")). -/
def redirectStep (innerpage : Bool) (d : PageDesc) : Option String :=
  if innerpage = false ∧ d.type = "redirect" then some d.redirectTo else none

/-- Engine.verifyRecursion (lines 672-675): the Engine receiver's
Recursivity chain and the candidate page are ignored and the function
reports no recursion for every input. -/
def verifyRecursion (recursivity : List String) (page : String) : Bool :=
  false

/- -------------------------------------------------------------- -/
/- Identity resolver (lines 425-457).                              -/
/- -------------------------------------------------------------- -/

/-- server.Identity: a (version, language) pair. -/
abbrev Identity := String × String

/-- Lines 425-430: versions = [defversion], then the requested version when
non-empty and different from the default, then "". -/
def buildVersions (defversion version : String) : List String :=
  let versions := [defversion]
  let versions :=
    if 0 < version.length ∧ version ≠ defversion then versions ++ [version]
    else versions
  versions ++ [""]

/-- Lines 432-437: the same construction for languages. -/
def buildLanguages (deflanguage language : String) : List String :=
  let languages := [deflanguage]
  let languages :=
    if 0 < language.length ∧ language ≠ deflanguage then languages ++ [language]
    else languages
  languages ++ [""]

/-- Lines 439-445: the nested for loops appending Identity{v, l}, version
outer, language inner. -/
def buildIdentities (versions languages : List String) : List Identity :=
  versions.foldl
    (fun ids v => languages.foldl (fun ids2 l => ids2 ++ [(v, l)]) ids) []

/-- Modelled from the spec: the candidate identities are the full cross
product of the version list with the language list, version as the outer
(primary) key, language inner, preserving list order. -/
def specIdentities (versions languages : List String) : List Identity :=
  versions.flatMap (fun v => languages.map (fun l => (v, l)))

/-- Modelled from the spec: versions = [dv] ++ ([v] if v is non-empty and
differs from dv) ++ [""]. -/
def specVersions (dv v : String) : List String :=
  [dv] ++ (if v ≠ "" ∧ v ≠ dv then [v] else []) ++ [""]

/-- Modelled from the spec: languages = [dl] ++ ([l] if l is non-empty and
differs from dl) ++ [""]. -/
def specLanguages (dl l : String) : List String :=
  [dl] ++ (if l ≠ "" ∧ l ≠ dl then [l] else []) ++ [""]

/-- Lines 452-457: the instance loop tries each identity in list order and
breaks at the first non-nil store answer. -/
def instanceLookup {α : Type} (store : Identity → Option α) :
    List Identity → Option α
  | [] => none
  | n :: rest =>
    match store n with
    | some d => some d
    | none => instanceLookup store rest

/- -------------------------------------------------------------- -/
/- Template composition (lines 566-577).                           -/
/- -------------------------------------------------------------- -/

/-- The fixed placeholder token spliced by the composition step. -/
def marker : List Char := "[[CONTENT]]".toList

/-- strings.Replace(s, pat, rep, -1) for a non-empty pattern: scan left to
right, replace every non-overlapping occurrence, continue after the
inserted replacement.  Indexed by fuel; replaceAll supplies fuel
s.length, which one scanning step per consumed character never
exhausts. -/
def replaceAllF (pat rep : List Char) : Nat → List Char → List Char
  | 0, s => s
  | _ + 1, [] => []
  | f + 1, c :: rest =>
    if pat ≠ [] ∧ pat.isPrefixOf (c :: rest) then
      rep ++ replaceAllF pat rep f ((c :: rest).drop pat.length)
    else
      c :: replaceAllF pat rep f rest

/-- strings.Replace(s, pat, rep, -1). -/
def replaceAll (pat rep s : List Char) : List Char :=
  replaceAllF pat rep s.length s

/-- Decidable substring occurrence test, used to speak about leftover
placeholder tokens. -/
def containsSeq (pat : List Char) : List Char → Bool
  | [] => decide (pat = [])
  | c :: rest => pat.isPrefixOf (c :: rest) || containsSeq pat rest

/-- The template-composition recursion of Engine.Run (lines 566-577): the
body of the current level is computed first (the content oracle stands
for the type dispatch of lines 500-560), then, when the descriptor's
template reference is non-empty, the parent is rendered by a recursive
inner call and every occurrence of [[CONTENT]] in the parent's output is
replaced by the current body.  tmpl p is pagedata.Get("template") for the
page p ("" when absent).  The fuel totalizes the recursion, which the
code itself leaves unbounded (verifyRecursion never fires); none models
non-termination on cyclic template chains.  The Nat in the result counts
the substitution steps performed. -/
def composeAux (tmpl : String → String) (content : String → List Char) :
    Nat → String → Option (List Char × Nat)
  | 0, _ => none
  | fuel + 1, p =>
    let body := content p
    if tmpl p = "" then some (body, 0)
    else
      match composeAux tmpl content fuel (tmpl p) with
      | none => none
      | some (father, k) => some (replaceAll marker body father, k + 1)

/-- The fully composed output of a template chain [p0, p1, ..., pN] (p0 the
requested page, each pi's descriptor referencing p(i+1)): each step
splices the accumulated body into the parent's output at the marker. -/
def spliceChain (content : String → List Char) : List String → List Char
  | [] => []
  | [p] => content p
  | p :: q :: rest => replaceAll marker (content p) (spliceChain content (q :: rest))

/-- A well-formed template chain: each element's template reference names
the next element (non-empty), and the last element has no reference. -/
def chainOKb (tmpl : String → String) : List String → Bool
  | [] => true
  | [p] => decide (tmpl p = "")
  | p :: q :: rest =>
    decide (tmpl p = q) && decide (q ≠ "") && chainOKb tmpl (q :: rest)

/- -------------------------------------------------------------- -/
/- The wajafapp compiled-library engine (lines 100-309).           -/
/- -------------------------------------------------------------- -/

/-- assets.Plugin: the per-source-file compiled-module state cached in
LibraryCache.  Loaded artifact handles (Go *plugin.Plugin values) are
modelled by Nat ids, resolved callables likewise. -/
structure Plugin where
  SourcePath : String
  PluginPath : String
  PluginVPath : String
  Version : Nat
  Messages : String
  Status : Nat
  Libs : List (String × Nat)
  Lib : Option Nat
  RunFn : Option Nat
deriving DecidableEq

/-- The external world one LibraryEngineInstance.Run invocation observes:
file-system tests, the compiler call, the go tool buildid subprocess, the
plugin loader, and the loaded plugin's exported symbols (the Bool of an
export records whether its signature matches the standard Run type). -/
structure LibEnv where
  sourceExists : Bool
  artifactExists : Bool
  sourceUnchanged : Bool
  compileErr : Option String
  buildIdResult : Except String String
  loadResult : Except String Nat
  exports : String → Except String (Nat × Bool)
  urlParams : List String

/-- What one invocation returns: a plain string (accumulated messages or an
inline error), or the call into the resolved exported function together
with the requested output kind (the json post-processing of lines
242-298 happens after this point and is not modelled). -/
inductive LibOutcome where
  | content (s : String)
  | dispatched (fn : Nat) (out : String)
deriving DecidableEq

/-- getBuildId (lines 301-309): a failing subprocess does not raise an
error; the diagnostic text itself is returned as the build id. -/
def getBuildId (subproc : Except String String) : String :=
  match subproc with
  | Except.ok out => out
  | Except.error e => "Error running go tool buildid:\n" ++ e

/-- Go map indexing lib.Libs[buildid]. -/
def lookupAssoc : List (String × Nat) → String → Option Nat
  | [], _ => none
  | (k, v) :: rest, key => if k = key then some v else lookupAssoc rest key

/-- Lines 125-138: take the cached module or create a fresh one (Status 0,
empty messages, empty registry). -/
def libInit (cdata : Option Plugin) (sourcePath pluginPath : String) : Plugin :=
  match cdata with
  | some l => l
  | none =>
    { SourcePath := sourcePath
      PluginPath := pluginPath
      PluginVPath := pluginPath ++ ".1"
      Version := 0
      Messages := ""
      Status := 0
      Libs := []
      Lib := none
      RunFn := none }

/-- Lines 140-147: missing source file.  Status and messages change only
when the module is not already in Error; the accumulated messages are
returned either way. -/
def libMissingSource (lib : Plugin) : Plugin × String :=
  if lib.Status ≠ 2 then
    let lib2 := { lib with
      Status := 2
      Messages := lib.Messages ++ "Error: " ++ lib.SourcePath ++
        " Source file does not exists.\n" }
    (lib2, lib2.Messages)
  else (lib, lib.Messages)

/-- Lines 149-156: the module must compile unless the compiled artifact
exists and the staleness validator accepts the source against its
modification time. -/
def mustCompile (env : LibEnv) : Bool :=
  !(env.artifactExists && env.sourceUnchanged)

/-- Lines 158-168: the compile step.  some message = early return. -/
def libCompile (env : LibEnv) (lib : Plugin) : Plugin × Option String :=
  if mustCompile env then
    let lib1 := { lib with Status := 0 }
    match env.compileErr with
    | some e =>
      let lib2 := { lib1 with
        Status := 2
        Messages := lib1.Messages ++ "Error: " ++ lib1.SourcePath ++
          " could not compile:\n" ++ e }
      (lib2, some lib2.Messages)
    | none => (lib1, none)
  else (lib, none)

/-- Lines 189-209: resolve and type-check the well-known Run entry point of
the loaded artifact; success caches the callable and reaches Ready. -/
def libResolveRun (env : LibEnv) (lib : Plugin) : Plugin × Option String :=
  match env.exports "Run" with
  | Except.error e =>
    let lib2 := { lib with
      Status := 2
      Messages := lib.Messages ++ "Error: " ++ lib.SourcePath ++
        " does not contain a Run function:\n" ++ e }
    (lib2, some lib2.Messages)
  | Except.ok (fn, sigok) =>
    if sigok then ({ lib with RunFn := some fn, Status := 1 }, none)
    else
      let lib2 := { lib with
        Status := 2
        Messages := lib.Messages ++ "Error: " ++ lib.SourcePath ++
          " does not contain a valid standard Run function:\n" }
      (lib2, some lib2.Messages)

/-- Lines 170-210: when the module still needs loading, the artifact's
build id keys the grow-only handle registry; a hit reuses the loaded
handle, a miss loads the artifact and registers it under that key before
resolving Run. -/
def libLoad (env : LibEnv) (lib : Plugin) : Plugin × Option String :=
  if lib.Status = 0 then
    let buildid := getBuildId env.buildIdResult
    match lookupAssoc lib.Libs buildid with
    | some plg => libResolveRun env { lib with Lib := some plg }
    | none =>
      match env.loadResult with
      | Except.error e =>
        let lib2 := { lib with
          Status := 2
          Messages := lib.Messages ++ "Error: " ++ lib.SourcePath ++
            " could not load:\n" ++ e }
        (lib2, some lib2.Messages)
      | Except.ok h =>
        libResolveRun env
          { lib with Lib := some h, Libs := lib.Libs ++ [(buildid, h)] }
  else (lib, none)

/-- strings.Title applied to a single URL segment. -/
def titleCase (s : String) : String := s.capitalize

/-- Lines 216-241: pick the requested entry point (first URL parameter,
capitalized, unless it is "code") and output kind (second URL
parameter), look the function up and call it; lookup or signature
failure here returns an inline error string without touching the module
state. -/
def libDispatch (env : LibEnv) (lib : Plugin) : LibOutcome :=
  let fctname :=
    match env.urlParams with
    | [] => "Run"
    | p1 :: _ => if p1 ≠ "code" then titleCase p1 else "Run"
  let outKind :=
    match env.urlParams with
    | _ :: p2 :: _ => p2
    | _ => "string"
  match env.exports fctname with
  | Except.error e =>
    LibOutcome.content
      ("ERROR: WAJAF LIBRARY DOES NOT CONTAIN FUNCTION " ++ fctname ++
        ", Error: " ++ e)
  | Except.ok (fn, sigok) =>
    if sigok then LibOutcome.dispatched fn outKind
    else
      LibOutcome.content
        ("ERROR: WAJAF LIBRARY::" ++ fctname ++
          " HAS NOT A VALID STANDARD DEFINITION, Error: <nil>")

/-- LibraryEngineInstance.Run (lines 115-241): missing-source check, then
compile, load/resolve, the Ready gate of lines 212-214, and dispatch.
The returned Plugin is the module state left in LibraryCache. -/
def LibRun (env : LibEnv) (cdata : Option Plugin) (sourcePath pluginPath : String) :
    Plugin × LibOutcome :=
  let lib0 := libInit cdata sourcePath pluginPath
  if env.sourceExists = false then
    let r := libMissingSource lib0
    (r.1, LibOutcome.content r.2)
  else
    match libCompile env lib0 with
    | (lib1, some m) => (lib1, LibOutcome.content m)
    | (lib1, none) =>
      match libLoad env lib1 with
      | (lib2, some m) => (lib2, LibOutcome.content m)
      | (lib2, none) =>
        if lib2.Status ≠ 1 then (lib2, LibOutcome.content lib2.Messages)
        else (lib2, libDispatch env lib2)

/- -------------------------------------------------------------- -/
/- Concrete instances used by witnesses and counterexamples.       -/
/- -------------------------------------------------------------- -/

/-- A top-level redirect context whose descriptor carries redirectCode 999. -/
def ctxW : RedirectCtx :=
  { IsMainPage := true
    redirecturl := "/new-location"
    redirectcode := 999
    MainPage := "main" }

/-- A module that has compiled and loaded before: Ready, with a registered
artifact handle and a resolved callable. -/
def libC2 : Plugin :=
  { SourcePath := "/s.go"
    PluginPath := "/p.so"
    PluginVPath := "/p.so.1"
    Version := 1
    Messages := ""
    Status := 1
    Libs := [("bid", 7)]
    Lib := some 7
    RunFn := some 3 }

/-- An invocation that finds the source stale and the compiler failing. -/
def envC2 : LibEnv :=
  { sourceExists := true
    artifactExists := true
    sourceUnchanged := false
    compileErr := some "boom"
    buildIdResult := Except.ok "bid"
    loadResult := Except.ok 7
    exports := fun _ => Except.ok (3, true)
    urlParams := [] }

/-- An invocation whose source file is gone. -/
def envC6 : LibEnv :=
  { sourceExists := false
    artifactExists := false
    sourceUnchanged := false
    compileErr := none
    buildIdResult := Except.ok "bid"
    loadResult := Except.ok 0
    exports := fun _ => Except.error "nf"
    urlParams := [] }

/-- A fresh module state (never compiled). -/
def libC6 : Plugin := libInit none "/s.go" "/p.so"

/-- An invocation in which the go tool buildid subprocess fails but compile,
load and the Run lookup all succeed. -/
def envC10 : LibEnv :=
  { sourceExists := true
    artifactExists := false
    sourceUnchanged := false
    compileErr := none
    buildIdResult := Except.error "exit status 1"
    loadResult := Except.ok 7
    exports := fun s => if s = "Run" then Except.ok (3, true) else Except.error "nf"
    urlParams := [] }

/-- A module about to be compiled and loaded for the first time. -/
def libC10 : Plugin := libInit none "/s.go" "/p.so"

/-- An instance store answering only the identity ("2", "en"). -/
def storeC4 : Identity → Option Nat :=
  fun n => if n = ("2", "en") then some 42 else none

/-- A published descriptor accepting path parameters. -/
def descC5 : PageDesc :=
  { status := "published"
    type := "simple"
    template := ""
    redirectTo := ""
    acceptPathParameters := true }

/-- A descriptor store holding only the path blog. -/
def storeC5 : List String → Option PageDesc :=
  fun segs => if segs = ["blog"] then some descC5 else none

/-- A template chain a -> b used by the composition witness. -/
def tmplW : String → String := fun p => if p = "a" then "b" else ""

/-- Per-level bodies for the composition witness. -/
def contentW : String → List Char :=
  fun p => if p = "a" then "X".toList else "P[[CONTENT]]Q".toList

/-- Template chain pg -> t whose page body is the placeholder token itself. -/
def tmplCx : String → String := fun p => if p = "pg" then "t" else ""

/-- The page body is the literal token; the parent contains it once. -/
def contentCx : String → List Char :=
  fun p => if p = "pg" then "[[CONTENT]]".toList else "A[[CONTENT]]B".toList

/- -------------------------------------------------------------- -/
/- Helper lemmas.                                                  -/
/- -------------------------------------------------------------- -/

/-- Appending a fresh binding to an association list that lacks the key
makes the lookup find it. -/
theorem lookupAssoc_append_self (L : List (String × Nat)) (key : String) (h : Nat)
    (hnone : lookupAssoc L key = none) :
    lookupAssoc (L ++ [(key, h)]) key = some h := by
  induction L with
  | nil => simp [lookupAssoc]
  | cons a as ih =>
    obtain ⟨k, v⟩ := a
    by_cases hk : k = key
    · simp [lookupAssoc, hk] at hnone
    · simp only [lookupAssoc, hk, if_false, List.cons_append] at hnone ⊢
      exact ih hnone

/- -------------------------------------------------------------- -/
/- C1.                                                             -/
/- -------------------------------------------------------------- -/

/-- C1: for every top-level (IsMainPage) call whose matched redirect
descriptor has a non-empty redirectURL, RedirectEngine.Run responds with
a redirect to that URL using redirectcode when it is one of
301, 302, 307, 308 and with 308 otherwise; in particular redirectcode
999 yields a 308 redirect. -/
theorem c1_redirect_code (ctx : RedirectCtx)
    (hm : ctx.IsMainPage = true) (hu : ctx.redirecturl ≠ "") :
    (ctx.redirectcode = 301 ∨ ctx.redirectcode = 302 ∨
        ctx.redirectcode = 307 ∨ ctx.redirectcode = 308 →
      redirectEngineRun ctx = RedirectOut.redirect ctx.redirecturl ctx.redirectcode) ∧
    (¬(ctx.redirectcode = 301 ∨ ctx.redirectcode = 302 ∨
        ctx.redirectcode = 307 ∨ ctx.redirectcode = 308) →
      redirectEngineRun ctx = RedirectOut.redirect ctx.redirecturl 308) ∧
    (ctx.redirectcode = 999 →
      redirectEngineRun ctx = RedirectOut.redirect ctx.redirecturl 308) := by
  unfold redirectEngineRun
  rw [if_pos ⟨hm, hu⟩]
  dsimp only
  refine ⟨?_, ?_, ?_⟩
  · intro h
    have hcond : ¬(ctx.redirectcode ≠ 301 ∧ ctx.redirectcode ≠ 302 ∧
        ctx.redirectcode ≠ 307 ∧ ctx.redirectcode ≠ 308) := by tauto
    rw [if_neg hcond]
  · intro h
    push_neg at h
    obtain ⟨h1, h2, h3, h4⟩ := h
    rw [if_pos ⟨h1, h2, h3, h4⟩]
  · intro h9
    have hcond : ctx.redirectcode ≠ 301 ∧ ctx.redirectcode ≠ 302 ∧
        ctx.redirectcode ≠ 307 ∧ ctx.redirectcode ≠ 308 := by
      rw [h9]; refine ⟨by decide, by decide, by decide, by decide⟩
    rw [if_pos hcond]

/-- C1 witness: the concrete top-level context with redirectcode 999
redirects to its URL with code 308. -/
theorem c1_redirect_code_witness :
    redirectEngineRun ctxW = RedirectOut.redirect "/new-location" 308 :=
  (c1_redirect_code ctxW rfl (by decide)).2.2 rfl

/- -------------------------------------------------------------- -/
/- C3.                                                             -/
/- -------------------------------------------------------------- -/

/-- C3: the recursion guard is a stub.  For every Recursivity chain and
candidate page — including inputs whose page already occurs in the
chain — verifyRecursion reports no cycle, so the engine never fails fast
on a template-chain repeat. -/
theorem c3_recursion_unguarded :
    (∀ (chain : List String) (p : String), verifyRecursion chain p = false) ∧
    verifyRecursion ["a"] "a" = false :=
  ⟨fun _ _ => rfl, rfl⟩

/- -------------------------------------------------------------- -/
/- C9.                                                             -/
/- -------------------------------------------------------------- -/

/-- C9: Engine.Start reads page[0] before any emptiness check, so its page
cleaning is defined exactly on non-empty paths (the empty path indexes
out of bounds); the mainpage substitution happens only after the slash
handling, as the path consisting of a single slash shows. -/
theorem c9_start_nonempty (m : List Char) :
    (∀ p : List Char, startClean m p = none ↔ p = []) ∧
    startClean m ['/'] = some (StartAction.run m) := by
  constructor
  · intro p
    cases p with
    | nil => simp [startClean]
    | cons c rest =>
      simp only [startClean, List.cons_ne_nil, iff_false]
      intro hfalse
      split at hfalse <;> split at hfalse <;>
        (try split at hfalse) <;> simp at hfalse
  · rfl

/- -------------------------------------------------------------- -/
/- C6.                                                             -/
/- -------------------------------------------------------------- -/

/-- C6: with the source file missing, an invocation drives the module to
Error, appends the source-missing diagnostic exactly when the module was
not already in Error, returns the accumulated messages, and a repeated
invocation while the file is still missing leaves the messages
unchanged. -/
theorem c6_missing_source (env : LibEnv) (lib0 : Plugin) (sp pp : String)
    (hs : env.sourceExists = false) :
    ((LibRun env (some lib0) sp pp).1.Status = 2) ∧
    (lib0.Status ≠ 2 →
      (LibRun env (some lib0) sp pp).1.Messages =
        lib0.Messages ++ "Error: " ++ lib0.SourcePath ++
          " Source file does not exists.\n") ∧
    (lib0.Status = 2 → (LibRun env (some lib0) sp pp).1 = lib0) ∧
    ((LibRun env (some lib0) sp pp).2 =
      LibOutcome.content (LibRun env (some lib0) sp pp).1.Messages) ∧
    ((LibRun env (some (LibRun env (some lib0) sp pp).1) sp pp).1.Messages =
      (LibRun env (some lib0) sp pp).1.Messages) := by
  by_cases h2 : lib0.Status = 2
  · simp [LibRun, libInit, libMissingSource, hs, h2]
  · simp [LibRun, libInit, libMissingSource, hs, h2]

/-- C6 witness: a fresh module invoked with the source file missing reaches
Error status. -/
theorem c6_missing_source_witness :
    (LibRun envC6 (some libC6) "/s.go" "/p.so").1.Status = 2 :=
  (c6_missing_source envC6 libC6 "/s.go" "/p.so" rfl).1

/- -------------------------------------------------------------- -/
/- C2.                                                             -/
/- -------------------------------------------------------------- -/

/-- C2 counterexample: a Ready module with a previously-loaded artifact
handle and a resolved callable, found stale with the compiler failing,
returns the accumulated error message as content — it does not dispatch
to the previously-loaded artifact. -/
theorem c2_counterexample :
    libC2.Lib = some 7 ∧ libC2.Libs = [("bid", 7)] ∧ libC2.Status = 1 ∧
    mustCompile envC2 = true ∧ envC2.compileErr = some "boom" ∧
    (LibRun envC2 (some libC2) "/s.go" "/p.so").1.Status = 2 ∧
    (LibRun envC2 (some libC2) "/s.go" "/p.so").2 =
      LibOutcome.content "Error: /s.go could not compile:\nboom" := by
  refine ⟨rfl, rfl, rfl, rfl, rfl, rfl, ?_⟩
  decide

/-- C2 (amended): when the module is stale and the external compile call
fails, the status becomes Error, a diagnostic is appended to the
messages, and the accumulated error message is returned as the response
content, regardless of any previously-loaded artifact handle. -/
theorem c2_compile_failure (env : LibEnv) (lib0 : Plugin) (e sp pp : String)
    (hs : env.sourceExists = true) (hm : mustCompile env = true)
    (hc : env.compileErr = some e) :
    (LibRun env (some lib0) sp pp).1.Status = 2 ∧
    (LibRun env (some lib0) sp pp).1.Messages =
      lib0.Messages ++ "Error: " ++ lib0.SourcePath ++
        " could not compile:\n" ++ e ∧
    (LibRun env (some lib0) sp pp).2 =
      LibOutcome.content ((LibRun env (some lib0) sp pp).1.Messages) := by
  simp [LibRun, libInit, libCompile, hs, hm, hc]

/-- C2 witness for the amended statement: the concrete stale module with a
failing compiler ends in Error status. -/
theorem c2_compile_failure_witness :
    (LibRun envC2 (some libC2) "/s.go" "/p.so").1.Status = 2 :=
  (c2_compile_failure envC2 libC2 "boom" "/s.go" "/p.so" rfl rfl rfl).1

/- -------------------------------------------------------------- -/
/- C10.                                                            -/
/- -------------------------------------------------------------- -/

/-- C10: a failing buildid subprocess is not reported as an error:
getBuildId returns the diagnostic text, the loader keys the grow-only
handle registry with that text, the artifact is loaded and registered
under the error text, and the invocation proceeds to dispatch with the
module Ready rather than in Error. -/
theorem c10_buildid_error_key (env : LibEnv) (lib0 : Plugin) (e sp pp : String)
    (h fn : Nat)
    (hs : env.sourceExists = true) (hm : mustCompile env = true)
    (hcomp : env.compileErr = none)
    (hb : env.buildIdResult = Except.error e)
    (hlibs : lookupAssoc lib0.Libs ("Error running go tool buildid:\n" ++ e) = none)
    (hload : env.loadResult = Except.ok h)
    (hrun : env.exports "Run" = Except.ok (fn, true))
    (hparams : env.urlParams = []) :
    getBuildId env.buildIdResult = "Error running go tool buildid:\n" ++ e ∧
    (LibRun env (some lib0) sp pp).1.Status = 1 ∧
    lookupAssoc (LibRun env (some lib0) sp pp).1.Libs
      ("Error running go tool buildid:\n" ++ e) = some h ∧
    (LibRun env (some lib0) sp pp).2 = LibOutcome.dispatched fn "string" := by
  have hb' : getBuildId env.buildIdResult = "Error running go tool buildid:\n" ++ e := by
    simp [getBuildId, hb]
  refine ⟨hb', ?_, ?_, ?_⟩ <;>
    simp [LibRun, libInit, libCompile, libLoad, libResolveRun, libDispatch,
      hs, hm, hcomp, hb', hlibs, hload, hrun, hparams,
      lookupAssoc_append_self lib0.Libs _ h hlibs]

/-- C10 witness: the concrete failing-buildid invocation leaves the module
Ready. -/
theorem c10_buildid_error_key_witness :
    (LibRun envC10 (some libC10) "/s.go" "/p.so").1.Status = 1 :=
  (c10_buildid_error_key envC10 libC10 "exit status 1" "/s.go" "/p.so" 7 3
    rfl rfl rfl rfl rfl rfl rfl rfl).2.1

/- -------------------------------------------------------------- -/
/- C4.                                                             -/
/- -------------------------------------------------------------- -/

/-- A Go string has positive length exactly when it is non-empty. -/
theorem string_pos_iff_ne (s : String) : 0 < s.length ↔ s ≠ "" := by
  constructor
  · intro h he
    subst he
    simp at h
  · intro h
    have hz : s.length ≠ 0 := by
      intro h0
      have hd : s.data = [] :=
        List.length_eq_zero.mp (by rw [String.length_data]; exact h0)
      exact h (String.ext hd)
    omega

/-- The version candidate list of the code equals the spec's formula. -/
theorem buildVersions_eq_spec (dv v : String) :
    buildVersions dv v = specVersions dv v := by
  unfold buildVersions specVersions
  simp only [string_pos_iff_ne]
  split <;> simp

/-- The language candidate list of the code equals the spec's formula. -/
theorem buildLanguages_eq_spec (dl l : String) :
    buildLanguages dl l = specLanguages dl l := by
  unfold buildLanguages specLanguages
  simp only [string_pos_iff_ne]
  split <;> simp

/-- The inner append-fold over languages is a map snoc. -/
theorem foldl_snoc_map (v : String) (ls : List String) :
    ∀ acc : List Identity,
      ls.foldl (fun a l => a ++ [(v, l)]) acc = acc ++ ls.map (fun l => (v, l)) := by
  induction ls with
  | nil => intro acc; simp
  | cons x xs ih => intro acc; simp [List.foldl_cons, ih]

/-- The nested loops of Engine.Run build exactly the cross product with
version as the outer key. -/
theorem buildIdentities_eq_spec (vs ls : List String) :
    buildIdentities vs ls = specIdentities vs ls := by
  have key : ∀ (vs' : List String) (acc : List Identity),
      vs'.foldl (fun ids v => ls.foldl (fun ids2 l => ids2 ++ [(v, l)]) ids) acc
        = acc ++ specIdentities vs' ls := by
    intro vs'
    induction vs' with
    | nil => intro acc; simp [specIdentities]
    | cons x xs ih =>
      intro acc
      rw [List.foldl_cons, foldl_snoc_map, ih]
      simp [specIdentities, List.append_assoc]
  simpa [buildIdentities] using key vs []

/-- Length of the cross product. -/
theorem specIdentities_length (vs ls : List String) :
    (specIdentities vs ls).length = vs.length * ls.length := by
  induction vs with
  | nil => simp [specIdentities]
  | cons x xs ih =>
    simp only [specIdentities] at ih ⊢
    simp [List.flatMap_cons, ih, Nat.succ_mul, Nat.add_comm]

/-- The version candidate list never exceeds three entries. -/
theorem buildVersions_length_le (dv v : String) :
    (buildVersions dv v).length ≤ 3 := by
  unfold buildVersions
  split <;> simp

/-- The language candidate list never exceeds three entries. -/
theorem buildLanguages_length_le (dl l : String) :
    (buildLanguages dl l).length ≤ 3 := by
  unfold buildLanguages
  split <;> simp

/-- The instance loop answers none exactly when every identity misses. -/
theorem instanceLookup_none_iff {α : Type} (store : Identity → Option α)
    (ids : List Identity) :
    instanceLookup store ids = none ↔ ∀ j ∈ ids, store j = none := by
  induction ids with
  | nil => simp [instanceLookup]
  | cons i rest ih =>
    cases h : store i with
    | some r => simp [instanceLookup, h]
    | none => simp [instanceLookup, h, ih]

/-- The instance loop returns the first non-empty hit in list order. -/
theorem instanceLookup_first_hit {α : Type} (store : Identity → Option α)
    (ids1 ids2 : List Identity) (i : Identity) (r : α)
    (h1 : ∀ j ∈ ids1, store j = none) (h2 : store i = some r) :
    instanceLookup store (ids1 ++ i :: ids2) = some r := by
  induction ids1 with
  | nil => simp [instanceLookup, h2]
  | cons a as ih =>
    have ha : store a = none := h1 a (by simp)
    simp only [List.cons_append, instanceLookup, ha]
    exact ih (fun j hj => h1 j (by simp [hj]))

/-- C4: the identity candidate list built by Engine.Run is exactly the
cross product of the spec's version candidates with its language
candidates, version as the outer key and language as the inner key in
list order, hence at most 3 x 3 = 9 identities; the instance lookup
tries the identities in exactly that order and stops at the first
non-empty store hit. -/
theorem c4_identity_candidates {α : Type} (dv dl v l : String)
    (store : Identity → Option α) :
    buildVersions dv v = specVersions dv v ∧
    buildLanguages dl l = specLanguages dl l ∧
    buildIdentities (buildVersions dv v) (buildLanguages dl l)
      = specIdentities (specVersions dv v) (specLanguages dl l) ∧
    (buildIdentities (buildVersions dv v) (buildLanguages dl l)).length ≤ 9 ∧
    (∀ (ids1 ids2 : List Identity) (i : Identity) (r : α),
      buildIdentities (buildVersions dv v) (buildLanguages dl l) = ids1 ++ i :: ids2 →
      (∀ j ∈ ids1, store j = none) → store i = some r →
      instanceLookup store
        (buildIdentities (buildVersions dv v) (buildLanguages dl l)) = some r) ∧
    (instanceLookup store (buildIdentities (buildVersions dv v) (buildLanguages dl l)) = none ↔
      ∀ j ∈ buildIdentities (buildVersions dv v) (buildLanguages dl l), store j = none) := by
  refine ⟨buildVersions_eq_spec dv v, buildLanguages_eq_spec dl l, ?_, ?_, ?_, ?_⟩
  · rw [buildIdentities_eq_spec, buildVersions_eq_spec, buildLanguages_eq_spec]
  · rw [buildIdentities_eq_spec, specIdentities_length]
    have h1 := buildVersions_length_le dv v
    have h2 := buildLanguages_length_le dl l
    calc (buildVersions dv v).length * (buildLanguages dl l).length
        ≤ 3 * (buildLanguages dl l).length := Nat.mul_le_mul_right _ h1
      _ ≤ 3 * 3 := Nat.mul_le_mul_left _ h2
      _ = 9 := rfl
  · intro ids1 ids2 i r heq h1 h2
    rw [heq]
    exact instanceLookup_first_hit store ids1 ids2 i r h1 h2
  · exact instanceLookup_none_iff store _

/-- C4 witness: with a store answering only at identity 2 and en, the
lookup over the candidate list for defaults 1 and es with request 2 and
en returns that hit. -/
theorem c4_identity_candidates_witness :
    instanceLookup storeC4
      (buildIdentities (buildVersions "1" "2") (buildLanguages "es" "en")) = some 42 :=
  (c4_identity_candidates "1" "es" "2" "en" storeC4).2.2.2.2.1
    [("1", "es"), ("1", "en"), ("1", ""), ("2", "es")]
    [("2", ""), ("", "es"), ("", "en"), ("", "")]
    ("2", "en") 42 (by decide) (by decide) (by decide)

/- -------------------------------------------------------------- -/
/- C5.                                                             -/
/- -------------------------------------------------------------- -/

/-- Invariant of the locator loop over the k leading segments still under
consideration: the lookup count stays within k, a successful result is
the longest available prefix among take 1 .. take k, and a NotFound
answer means every one of those prefixes failed. -/
theorem locateFrom_spec (store : List String → Option PageDesc) (inner : Bool)
    (segs : List String) :
    ∀ k : Nat, 1 ≤ k →
      ((locateFrom store inner segs k).2 ≤ k) ∧
      (∀ ps d, (locateFrom store inner segs k).1 = some (ps, d) →
        ∃ j, 1 ≤ j ∧ j ≤ k ∧ ps = segs.take j ∧
          descrAt store inner (segs.take j) = some d ∧
          ∀ i, j < i → i ≤ k → descrAt store inner (segs.take i) = none) ∧
      ((locateFrom store inner segs k).1 = none →
        ∀ i, 1 ≤ i → i ≤ k → descrAt store inner (segs.take i) = none) := by
  intro k
  induction k with
  | zero => omega
  | succ k ih =>
    intro _
    cases hd : descrAt store inner (segs.take (k + 1)) with
    | some d =>
      refine ⟨?_, ?_, ?_⟩
      · simp [locateFrom, hd]
      · intro ps d' hps
        simp only [locateFrom, hd] at hps
        obtain ⟨hps1, hps2⟩ := Prod.mk.injEq .. ▸ (Option.some.injEq .. ▸ hps)
        refine ⟨k + 1, by omega, le_refl _, by simp [← hps1], ?_, ?_⟩
        · rw [← hps2]; exact hd
        · intro i hi1 hi2
          omega
      · intro h
        simp [locateFrom, hd] at h
    | none =>
      cases k with
      | zero =>
        refine ⟨by simp [locateFrom, hd], ?_, ?_⟩
        · intro ps d hps
          simp [locateFrom, hd] at hps
        · intro _ i hi1 hi2
          have hi : i = 1 := by omega
          subst hi
          exact hd
      | succ m =>
        have ihm := ih (by omega)
        have hunf : locateFrom store inner segs (m + 2)
            = ((locateFrom store inner segs (m + 1)).1,
               (locateFrom store inner segs (m + 1)).2 + 1) := by
          simp [locateFrom, hd]
        refine ⟨?_, ?_, ?_⟩
        · rw [hunf]
          have := ihm.1
          simp only []
          omega
        · intro ps d hps
          rw [hunf] at hps
          simp only [] at hps
          obtain ⟨j, hj1, hj2, hj3, hj4, hj5⟩ := ihm.2.1 ps d hps
          refine ⟨j, hj1, by omega, hj3, hj4, ?_⟩
          intro i hi1 hi2
          by_cases hi3 : i ≤ m + 1
          · exact hj5 i hi1 hi3
          · have : i = m + 2 := by omega
            subst this
            exact hd
        · intro h
          rw [hunf] at h
          simp only [] at h
          intro i hi1 hi2
          by_cases hi3 : i ≤ m + 1
          · exact ihm.2.2 h i hi1 hi3
          · have : i = m + 2 := by omega
            subst this
            exact hd

/-- C5: the locator first queries the full path; on each store miss or
availability failure it strips exactly one trailing segment, so it
performs at most depth + 1 lookups (the number of segments), the
descriptor it returns is the one of the longest available ancestor
prefix, and NotFound arises only after every prefix down to the single
leading segment has failed. -/
theorem c5_ancestor_fallback (store : List String → Option PageDesc)
    (inner : Bool) (segs : List String) (hne : segs ≠ []) :
    ((locatePage store inner segs).2 ≤ segs.length) ∧
    (∀ d, descrAt store inner segs = some d →
      locatePage store inner segs = (some (segs, d), 1)) ∧
    (∀ ps d, (locatePage store inner segs).1 = some (ps, d) →
      ∃ j, 1 ≤ j ∧ j ≤ segs.length ∧ ps = segs.take j ∧
        descrAt store inner (segs.take j) = some d ∧
        ∀ i, j < i → i ≤ segs.length → descrAt store inner (segs.take i) = none) ∧
    ((locatePage store inner segs).1 = none →
      ∀ i, 1 ≤ i → i ≤ segs.length → descrAt store inner (segs.take i) = none) := by
  have hpos : 1 ≤ segs.length := List.length_pos.mpr hne
  have hspec := locateFrom_spec store inner segs segs.length hpos
  refine ⟨hspec.1, ?_, hspec.2.1, hspec.2.2⟩
  intro d hd
  obtain ⟨m, hm⟩ : ∃ m, segs.length = m + 1 := ⟨segs.length - 1, by omega⟩
  unfold locatePage
  rw [hm]
  have htake : segs.take (m + 1) = segs := by
    rw [← hm]; exact List.take_length segs
  simp [locateFrom, htake, hd]

/-- C5 witness: on the two-segment path blog/x with a store holding only
blog, the locator performs at most two lookups. -/
theorem c5_ancestor_fallback_witness :
    (locatePage storeC5 false ["blog", "x"]).2 ≤ 2 :=
  (c5_ancestor_fallback storeC5 false ["blog", "x"] (by decide)).1

/- -------------------------------------------------------------- -/
/- C8.                                                             -/
/- -------------------------------------------------------------- -/

/-- C8: when the matched path is a strict prefix (the first k of the
request's segments with k below the request's depth), the remaining
segments become the extra path parameters exactly when the matched
descriptor accepts path parameters, and otherwise the locator fails
with the parameter-rejected NotFound error. -/
theorem c8_path_parameters (page : List String) (k : Nat) (d : PageDesc)
    (hk : k < page.length) :
    (d.acceptPathParameters = true →
      checkPathParams page (page.take k) d = ParamCheck.accepted (page.drop k)) ∧
    (d.acceptPathParameters = false →
      checkPathParams page (page.take k) d =
        ParamCheck.rejected "Error 404: no page found with parameters") := by
  have hne : page.take k ≠ page := by
    intro he
    have hlen := congrArg List.length he
    rw [List.length_take] at hlen
    omega
  have hlen : (page.take k).length = k := by
    rw [List.length_take]
    omega
  constructor
  · intro ha
    simp [checkPathParams, hne, ha, hlen]
  · intro ha
    simp [checkPathParams, hne, ha, hlen]

/-- C8 witness: requesting blog/2023/01/post-1 when only blog matches, with
acceptPathParameters true, yields parameters 2023, 01, post-1. -/
theorem c8_path_parameters_witness :
    checkPathParams ["blog", "2023", "01", "post-1"]
      (["blog", "2023", "01", "post-1"].take 1) descC5 =
      ParamCheck.accepted ["2023", "01", "post-1"] :=
  (c8_path_parameters ["blog", "2023", "01", "post-1"] 1 descC5 (by decide)).1 rfl

/- -------------------------------------------------------------- -/
/- C7.                                                             -/
/- -------------------------------------------------------------- -/

/-- Along a well-formed template chain, the composition recursion returns
the iterated splice and performs exactly one substitution per level that
carries a parent reference. -/
theorem composeAux_chain (tmpl : String → String) (content : String → List Char) :
    ∀ (rest : List String) (p : String) (fuel : Nat),
      chainOKb tmpl (p :: rest) = true → rest.length + 1 ≤ fuel →
      composeAux tmpl content fuel p
        = some (spliceChain content (p :: rest), rest.length) := by
  intro rest
  induction rest with
  | nil =>
    intro p fuel hc hf
    have hp : tmpl p = "" := by simpa [chainOKb] using hc
    obtain ⟨f, rfl⟩ : ∃ f, fuel = f + 1 := ⟨fuel - 1, by omega⟩
    simp [composeAux, hp, spliceChain]
  | cons q rs ih =>
    intro p fuel hc hf
    have hc' : ((tmpl p = q) ∧ (q ≠ "")) ∧ chainOKb tmpl (q :: rs) = true := by
      simpa [chainOKb] using hc
    obtain ⟨⟨hpq, hq⟩, hrest⟩ := hc'
    obtain ⟨f, rfl⟩ : ∃ f, fuel = f + 1 := ⟨fuel - 1, by omega⟩
    have hf' : rs.length + 1 ≤ f := by
      simp only [List.length_cons] at hf
      omega
    have hrec := ih q f hrest hf'
    simp only [composeAux, hpq, hq, hrec, spliceChain, List.length_cons]
    simp

/-- C7 (amended): composing N nested templates performs exactly N
substitution steps, each one a recursive inner call followed by the
replacement of every occurrence of the [[CONTENT]] token in the parent's
output by the current body; on inner calls template and block statuses
are admissible and the redirect branch is suppressed.  (Leftover tokens
can remain when a spliced body itself contains the token, so
token-freedom of the final output is not guaranteed.) -/
theorem c7_template_composition (tmpl : String → String)
    (content : String → List Char) (p : String) (rest : List String)
    (fuel : Nat) (hc : chainOKb tmpl (p :: rest) = true)
    (hf : rest.length + 1 ≤ fuel) :
    composeAux tmpl content fuel p
      = some (spliceChain content (p :: rest), rest.length) ∧
    (∀ d : PageDesc, d.status = "template" ∨ d.status = "block" →
      isAvailable true d = true) ∧
    (∀ d : PageDesc, redirectStep true d = none) := by
  refine ⟨composeAux_chain tmpl content rest p fuel hc hf, ?_, ?_⟩
  · intro d hd
    rcases hd with h | h <;> simp [isAvailable, h]
  · intro d
    simp [redirectStep]

/-- C7 counterexample: composing one nested template whose page body is the
literal placeholder token performs exactly one substitution step yet
leaves the token in the final output, refuting the no-leftover-token
guarantee. -/
theorem c7_counterexample :
    composeAux tmplCx contentCx 2 "pg" = some ("A[[CONTENT]]B".toList, 1) ∧
    containsSeq marker "A[[CONTENT]]B".toList = true := by
  constructor
  · decide
  · decide

/-- C7 witness for the amended statement: the concrete chain a then b
composes with exactly one substitution step. -/
theorem c7_template_composition_witness :
    composeAux tmplW contentW 2 "a" = some (spliceChain contentW ["a", "b"], 1) :=
  (c7_template_composition tmplW contentW "a" ["b"] 2 (by decide) (by decide)).1
